import Mathlib

/-!
Verification of the `claude-debugger` diagnostic script.

The script is a sequence of independent, output-only inspection routines.
We embed it shallowly: ambient OS state (results of spawned commands, file
existence, environment variables, …) is passed in explicitly as a snapshot,
every routine becomes a total function from its snapshot to the list of
lines it prints, and the Python string operations the script uses are
reproduced over `List Char`.

Modelling conventions:
- each `print(x)` call contributes the lines of `x` (its text split at
  newline characters) to the output list;
- a spawned command is represented by `ExecOutcome`: it either completed
  with captured stdout/stderr/exit-code, timed out, or made the spawn
  itself fail with an in-interpreter error message.
-/

namespace ClaudeDebugger

/-- The whitespace characters of Python `str.strip` / `str.split`. -/
def isPySpace (c : Char) : Bool :=
  c = ' ' || c = '\t' || c = '\n' || c = '\r' || c = '\x0b' || c = '\x0c'

/-- Python `str.strip()`: drop leading and trailing whitespace. -/
def pyStrip (s : String) : String :=
  ⟨((s.toList.dropWhile isPySpace).reverse.dropWhile isPySpace).reverse⟩

/-- Does `l` start with `sub` (character-by-character comparison)? -/
def leadMatch : List Char → List Char → Bool
  | [], _ => true
  | _ :: _, [] => false
  | a :: as, b :: bs => a == b && leadMatch as bs

/-- Does `l` contain `sub` as a contiguous run of characters? -/
def hasSub (sub : List Char) : List Char → Bool
  | [] => sub.isEmpty
  | b :: bs => leadMatch sub (b :: bs) || hasSub sub bs

/-- Python `sub in s` (substring test). -/
def pyIn (sub s : String) : Bool :=
  hasSub sub.toList s.toList

/-- Python `s.startswith(p)`. -/
def pyStartsWith (s p : String) : Bool :=
  leadMatch p.toList s.toList

/-- Python `str.upper()` (ASCII letters, which is all the script compares). -/
def pyUpper (s : String) : String :=
  ⟨s.toList.map Char.toUpper⟩

/-- Python `str.lower()` (ASCII letters, which is all the script compares). -/
def pyLower (s : String) : String :=
  ⟨s.toList.map Char.toLower⟩

/-- Python `s[:n]` for `n ≥ 0`. -/
def pyTake (n : Nat) (s : String) : String :=
  ⟨s.toList.take n⟩

/-- Python `s[-n:]` for a string of length at least `n`. -/
def pyLastN (n : Nat) (s : String) : String :=
  ⟨s.toList.drop (s.toList.length - n)⟩

/-- Split a character list at every occurrence of `c` (Python `s.split(c)`:
empty pieces are kept, the empty string yields one empty piece). -/
def splitOnChar (c : Char) : List Char → List (List Char)
  | [] => [[]]
  | a :: as =>
    let r := splitOnChar c as
    if a = c then [] :: r
    else
      match r with
      | [] => [[a]]
      | h :: t => (a :: h) :: t

/-- The lines of a printed text: Python `s.split(chr(10))`. -/
def pyLines (s : String) : List String :=
  (splitOnChar '\n' s.toList).map (fun l => ⟨l⟩)

/-- Python `s.split(chr(59), 1)[1]` when a semicolon is present: everything
after the first semicolon (and `s` itself when there is none). -/
def afterFirstSemi (s : String) : String :=
  if (s.toList.dropWhile (fun c => ¬ c = ';')).length = 0 then s
  else ⟨(s.toList.dropWhile (fun c => ¬ c = ';')).drop 1⟩

/-- One step of Python whitespace splitting: the next token and what follows
it.  The input is assumed to start with a non-space character. -/
def wsTok (l : List Char) : List Char × List Char :=
  (l.takeWhile (fun c => ¬ isPySpace c), l.dropWhile (fun c => ¬ isPySpace c))

/-- Python `s.split()` on a character list, with explicit fuel (the fuel is
always instantiated with the length of the list, which suffices because each
round consumes at least one character). -/
def splitWsFuel : Nat → List Char → List (List Char)
  | _, [] => []
  | 0, _ => []
  | n + 1, l =>
    let t := wsTok l
    t.1 :: splitWsFuel n (t.2.dropWhile isPySpace)

/-- Python `s.split()`: split on runs of whitespace, no empty tokens. -/
def pySplitWs (s : String) : List String :=
  (splitWsFuel s.toList.length (s.toList.dropWhile isPySpace)).map (fun l => ⟨l⟩)

/-- Python whitespace splitting with a bound on the number of splits; after
the last split the remainder (with its leading whitespace removed) is kept
verbatim as the final piece. -/
def splitWsMaxAux : Nat → List Char → List (List Char)
  | _, [] => []
  | 0, l => [l]
  | n + 1, l =>
    let t := wsTok l
    t.1 :: splitWsMaxAux n (t.2.dropWhile isPySpace)

/-- Python `s.split(None, maxsplit)`. -/
def pySplitMax (s : String) (maxsplit : Nat) : List String :=
  (splitWsMaxAux maxsplit (s.toList.dropWhile isPySpace)).map (fun l => ⟨l⟩)

/-! ## Command Runner (`run_command`, source lines 15–23)

`subprocess.run(cmd, shell=True, capture_output=True, text=True, timeout=5)`
is a call into the OS; its result is the ambient datum here.  The invocation
either completes (captured raw stdout/stderr and an exit code), raises
`TimeoutExpired`, or raises some other exception whose string form we carry. -/

inductive ExecOutcome where
  | completed (stdoutRaw stderrRaw : String) (code : Int)
  | timedOut
  | raised (msg : String)
deriving DecidableEq

/-- Source lines 15–23: on completion return the stripped stdout, stripped
stderr and the exit code; on `TimeoutExpired` return
`("", "Command timed out", 1)`; on any other exception `e` return
`("", str(e), 1)`.  Being a total Lean function, it propagates no exception
to its caller on any outcome. -/
def run_command : ExecOutcome → String × String × Int
  | .completed out err code => (pyStrip out, pyStrip err, code)
  | .timedOut => ("", "Command timed out", 1)
  | .raised e => ("", e, 1)

/-- Modelled from the spec: what the operating-system shell does with a
command line whose command name does not exist is not part of the source
file.  Spec §8 fixes it: "feeding it a command that does not exist yields a
result with non-zero status and non-empty error text, not an unhandled
failure" — under `shell=True` the shell itself launches fine, so the
subprocess completes normally (no interpreter exception) with empty stdout,
the shell error text on stderr, and the conventional shell exit status 127
for an unknown command. -/
def shellCommandNotFound (name : String) : ExecOutcome :=
  .completed "" ("sh: 1: " ++ name ++ ": not found") 127

/-! ## Report Formatter (`print_section`, source lines 25–29) -/

/-- The banner produced by the Python expression repeating `=` 60 times. -/
def bannerLine : String :=
  ⟨List.replicate 60 '='⟩

/-- Source lines 25–29: print a newline followed by the banner, then the
title preceded by one space, then the closing banner. -/
def print_section (title : String) : List String :=
  pyLines ("\n" ++ bannerLine) ++ pyLines (" " ++ title) ++ pyLines bannerLine

/-! ## Environment Variable Scan (`check_environment`, source lines 125–144) -/

/-- Source line 134: `value[:4] + ... + value[-4:]` when the value is longer
than 8 characters, the fixed token otherwise. -/
def maskValue (value : String) : String :=
  if 8 < value.length then pyTake 4 value ++ "..." ++ pyLastN 4 value
  else "***"

/-- The characters a mask of a long value hides: Python `value[4:-4]`. -/
def pyMiddle (value : String) : String :=
  ⟨(value.toList.drop 4).take (value.toList.length - 8)⟩

/-- Source line 131: the scan keeps a variable whose uppercased name
contains `CLAUDE` or `ANTHROPIC`. -/
def isSelectedName (k : String) : Bool :=
  pyIn "CLAUDE" (pyUpper k) || pyIn "ANTHROPIC" (pyUpper k)

/-- Source line 133: a kept variable is masked when its uppercased name
contains `KEY`, `TOKEN` or `SECRET`. -/
def isCredentialName (k : String) : Bool :=
  pyIn "KEY" (pyUpper k) || pyIn "TOKEN" (pyUpper k) || pyIn "SECRET" (pyUpper k)

/-- Source lines 130–137: the `key=value` entry the scan accumulates for one
environment variable, `none` when the variable is not kept. -/
def envEntryLine (k v : String) : Option String :=
  if isSelectedName k then
    some (k ++ "=" ++ (if isCredentialName k then maskValue v else v))
  else none

/-- Source lines 125–144. -/
def check_environment (environ : List (String × String)) : List String :=
  print_section "Environment Variables" ++
  (let vars := environ.filterMap (fun kv => envEntryLine kv.1 kv.2)
   if vars.isEmpty then ["No Claude/Anthropic environment variables found"]
   else "Claude/Anthropic related environment variables:" :: vars.map (fun v => "  " ++ v))

/-! ## CLI Presence Check (`check_claude_cli`, source lines 31–75)

Ambient state: the result of `shutil.which`, the `claude --version`
invocation, and for each fixed candidate path whether the file exists and
how parsing it went (`Except`: the top-level key names on success, the
exception text on failure).  The home directory is part of the snapshot. -/

deriving instance DecidableEq for Except

structure CliSnapshot where
  home : String
  whichClaude : Option String
  versionOutcome : ExecOutcome
  configStates : List (Option (Except String (List String)))
  cliDirStates : List Bool
deriving DecidableEq

/-- Source lines 46–50: the three fixed candidate configuration files. -/
def config_paths (home : String) : List String :=
  [home ++ "/.claude/config.json",
   home ++ "/.config/claude/config.json",
   "/etc/claude/config.json"]

/-- Source lines 66–71: the four fixed candidate CLI binary locations. -/
def cli_dirs (home : String) : List String :=
  ["/usr/local/bin/claude",
   "/usr/bin/claude",
   "/opt/claude/bin/claude",
   home ++ "/.local/bin/claude"]

/-- Python `print(list(config.keys()))` rendering of the key names. -/
def config_keys_repr (keys : List String) : String :=
  "[" ++ String.intercalate ", " (keys.map (fun k => "\x27" ++ k ++ "\x27")) ++ "]"

/-- Source lines 52–61: probe each candidate configuration file; for an
existing one print its path and then either its key names or the parse
error. -/
def configLines (home : String) (states : List (Option (Except String (List String)))) :
    List String :=
  (((config_paths home).zip states).map (fun ps =>
    match ps.2 with
    | none => []
    | some (.ok keys) =>
      ["  Config found: " ++ ps.1, "    Config keys: " ++ config_keys_repr keys]
    | some (.error e) =>
      ["  Config found: " ++ ps.1, "    Could not read config: " ++ e])).flatten

/-- Source lines 41–43: run `claude --version` and print it when the exit
code is zero. -/
def versionLines (oc : ExecOutcome) : List String :=
  let r := run_command oc
  if r.2.2 = 0 then pyLines ("  Version: " ++ r.1) else []

/-- Source lines 73–75: print each existing fixed binary location. -/
def cliDirLines (home : String) (states : List Bool) : List String :=
  (((cli_dirs home).zip states).map (fun ps =>
    if ps.2 then ["  Found CLI binary at: " ++ ps.1] else [])).flatten

/-- Source lines 31–75.  The configuration-file probe happens inside the
branch taken when `shutil.which` found the executable; the binary-location
probe happens on both branches. -/
def check_claude_cli (s : CliSnapshot) : List String :=
  print_section "Claude Code CLI Check" ++
  (match s.whichClaude with
   | some p =>
     ("✓ Claude CLI found at: " ++ p) ::
     (versionLines s.versionOutcome ++ configLines s.home s.configStates)
   | none => ["✗ Claude CLI not found in PATH"]) ++
  cliDirLines s.home s.cliDirStates

/-! ## SDK Presence Check (`check_claude_sdk`, source lines 77–123) -/

/-- Source lines 84–90: the five candidate package names. -/
def sdk_packages : List String :=
  ["claude_code", "claude_sdk", "anthropic_claude", "anthropic", "claudecode"]

structure SdkSnapshot where
  probeErr : Option String
  pkgStates : List (Option (String × Except String (Option String)))
  pipOutcome : ExecOutcome
  npmOutcome : ExecOutcome
deriving DecidableEq

/-- Source lines 93–106: lines for one candidate package.  `none` models
`find_spec` returning `None`; otherwise the state carries `spec.origin` and
the import attempt (its exception text, or the optional version attribute). -/
def pkgLines (name : String) (st : Option (String × Except String (Option String))) :
    List String :=
  match st with
  | none => []
  | some (origin, res) =>
    ("✓ Python package \x27" ++ name ++ "\x27 found") ::
    (match res with
     | .error e => ["  Could not load module: " ++ e]
     | .ok over =>
       (match over with
        | some v => ["  Version: " ++ v]
        | none => []) ++ ["  Location: " ++ origin])

/-- Source lines 77–123.  The whole per-package scan sits in one guard whose
exception text, when present, replaces the scan output; afterwards the two
package-manager listings are printed when non-empty. -/
def check_claude_sdk (s : SdkSnapshot) : List String :=
  print_section "Claude Code SDK Check" ++
  (match s.probeErr with
   | some e => ["Error checking Python packages: " ++ e]
   | none =>
     let probes := sdk_packages.zip s.pkgStates
     ((probes.map (fun np => pkgLines np.1 np.2)).flatten ++
      (if probes.any (fun np => np.2.isSome) then []
       else ["✗ No Claude SDK Python packages found"]))) ++
  (let r := run_command s.pipOutcome
   if r.1 = "" then []
   else ["", "Installed pip packages with \x27claude\x27:"] ++ pyLines r.1) ++
  (let r := run_command s.npmOutcome
   if r.1 = "" then []
   else ["", "Global npm packages with \x27claude\x27:"] ++ pyLines r.1)

/-! ## Process Scan (`check_processes`, source lines 146–158) -/

/-- Source lines 146–158: each non-blank line of the filtered process
listing is printed truncated to 150 characters with a trailing ellipsis. -/
def check_processes (psOutcome : ExecOutcome) : List String :=
  print_section "Running Processes" ++
  (let r := run_command psOutcome
   if r.1 = "" then ["No Claude-related processes found"]
   else
     "Claude-related processes:" ::
     (pyLines r.1).filterMap (fun line =>
       if pyStrip line = "" then none else some ("  " ++ pyTake 150 line ++ "...")))

/-! ## Launch Command Analyzer (`check_claude_launch_commands`,
source lines 160–285) -/

structure Session where
  pid : String
  start_time : String
  cpu_time : String
  command : String
deriving DecidableEq

/-- Source line 183: the false-positive substrings that disqualify a
process command. -/
def sessionExcluded (cmd : String) : Bool :=
  pyIn "VibeTunnel" cmd || pyIn "claude-monitor" cmd || pyIn "claude-debugger" cmd

/-- Source lines 172–189: one line of the process listing either yields a
session record or is skipped.  The line must be non-blank and mention the
keyword; it is split into at most 11 whitespace-delimited fields; fields 1,
8 and 9 are the id, start time and CPU time and field 10 the command, which
must itself mention the keyword and avoid the exclusions. -/
def sessionOfLine (line : String) : Option Session :=
  if pyStrip line ≠ "" ∧ pyIn "claude" line = true then
    let parts := pySplitMax line 10
    if 11 ≤ parts.length then
      let cmd := parts.getD 10 ""
      if pyIn "claude" cmd ∧ sessionExcluded cmd = false then
        some ⟨parts.getD 1 "", parts.getD 8 "", parts.getD 9 "", pyStrip cmd⟩
      else none
    else none
  else none

/-- Source lines 171–189: the retained sessions of the listing. -/
def parseSessions (stdout : String) : List Session :=
  (pyLines stdout).filterMap sessionOfLine

/-- Source lines 214–231: the printed interpretation of one parsed flag and
its (possibly empty) value; unrecognized flags print nothing. -/
def flagInterp (flag value : String) : List String :=
  if flag = "-p" ∨ flag = "--project" then
    ["    Project mode: " ++ (if value = "" then "Yes" else value)]
  else if flag = "-c" ∨ flag = "--config" then ["    Config file: " ++ value]
  else if flag = "-m" ∨ flag = "--model" then ["    Model override: " ++ value]
  else if flag = "--debug" then ["    Debug mode: Enabled"]
  else if flag = "--no-telemetry" then ["    Telemetry: Disabled"]
  else if flag = "--no-color" then ["    Color output: Disabled"]
  else if flag = "--json" then ["    JSON output: Enabled"]
  else if flag = "-h" ∨ flag = "--help" then ["    Help mode"]
  else if flag = "-v" ∨ flag = "--version" then ["    Version check"]
  else []

/-- Source lines 203–232: the token loop.  A token starting with a dash is a
flag; when the following token does not start with a dash it is consumed as
the flag value. -/
def flagLines : List String → List String
  | [] => []
  | [t] => if pyStartsWith t "-" then flagInterp t "" else []
  | t :: v :: rest2 =>
    if pyStartsWith t "-" then
      if pyStartsWith v "-" then flagInterp t "" ++ flagLines (v :: rest2)
      else flagInterp t v ++ flagLines rest2
    else flagLines (v :: rest2)

/-- Source lines 200–234: the argument block of one session.  The branch is
chosen by the two-character substring test `\x20-` on the command; only the
flag-parsing branch splits the command into tokens. -/
def analyze_command (cmd : String) : List String :=
  if pyIn " -" cmd then "  Detected arguments:" :: flagLines (pySplitWs cmd)
  else ["  Mode: Interactive (no arguments)"]

/-- Source lines 236–239: the working directory looked up for a session,
printed when the lookup output is non-empty. -/
def cwdLines (oc : ExecOutcome) : List String :=
  let r := run_command oc
  if r.1 = "" then [] else pyLines ("  Working Directory: " ++ r.1)

/-- Source lines 192–241: the numbered block printed for one session. -/
def sessionBlock (idx : Nat) (s : Session) (cwd : ExecOutcome) : List String :=
  ["Session " ++ toString idx ++ ":",
   "  PID: " ++ s.pid,
   "  Started: " ++ s.start_time,
   "  CPU Time: " ++ s.cpu_time,
   "  Command: " ++ s.command] ++
  analyze_command s.command ++ cwdLines cwd ++ [""]

/-- Source lines 277–280: clean one history line; a line in the
timestamp-prefixed format (containing both `:\x20` and a semicolon) is cut
after its first semicolon, and every printed line is stripped. -/
def cleanHistoryLine (line : String) : String :=
  if pyIn ": " line && pyIn ";" line then
    pyStrip (if pyIn ";" line then afterFirstSemi line else line)
  else pyStrip line

/-- Source lines 274–280: the lines printed for one history file tail. -/
def historyDisplayLines (stdout : String) : List String :=
  (pyLines stdout).filterMap (fun line =>
    if pyStrip line = "" then none
    else some ("    " ++ cleanHistoryLine line))

/-- Source lines 260–264: the three candidate history files, by the name the
report prints. -/
def history_file_names : List String :=
  [".zsh_history", ".bash_history", ".history"]

/-- Source lines 266–285: probe each existing history file; a file whose
filtered tail is non-empty contributes a `From` header and its cleaned
lines; when no file contributed, a single negative line is printed. -/
def historySection (states : List (Bool × ExecOutcome)) : List String :=
  let blocks := (history_file_names.zip states).filterMap (fun ns =>
    if ns.2.1 then
      let r := run_command ns.2.2
      if r.1 = "" then none
      else some (("  From " ++ ns.1 ++ ":") :: historyDisplayLines r.1)
    else none)
  if blocks.isEmpty then ["  No recent Claude commands found in shell history"]
  else blocks.flatten

/-- Source lines 247–254: shell sessions mentioning the keyword, at most
five lines, truncated to 120 characters. -/
def shellSessionLines (oc : ExecOutcome) : List String :=
  let r := run_command oc
  if r.1 = "" then []
  else
    "Shell sessions that may have launched Claude:" ::
    ((pyLines r.1).take 5).filterMap (fun line =>
      if pyStrip line = "" then none else some ("  " ++ pyTake 120 line ++ "..."))

structure LaunchSnapshot where
  psOutcome : ExecOutcome
  cwdFor : String → ExecOutcome
  shellPsOutcome : ExecOutcome
  historyStates : List (Bool × ExecOutcome)

/-- Source lines 160–285. -/
def check_claude_launch_commands (s : LaunchSnapshot) : List String :=
  print_section "Claude CLI Launch Commands" ++
  (let r := run_command s.psOutcome
   if r.1 = "" then ["No Claude CLI processes detected"]
   else
     ["Active Claude CLI sessions and their launch commands:", ""] ++
     (let sessions := parseSessions r.1
      if sessions.isEmpty then ["No active Claude CLI command sessions found"]
      else
        ((List.range sessions.length).zip sessions).map (fun isx =>
          sessionBlock (isx.1 + 1) isx.2 (s.cwdFor isx.2.pid)) |>.flatten)) ++
  ["", "Checking for parent shell sessions:"] ++
  shellSessionLines s.shellPsOutcome ++
  ["", "Recent Claude commands from shell history:"] ++
  historySection s.historyStates

/-! ## Container Detection (`check_docker`, source lines 287–303) -/

/-- Source lines 292–297: the marker-file decision, Docker-style marker
first, the Podman/other marker only when the first is absent, a single
negative line when neither exists. -/
def containerMarkerLines (dockerenv containerenv : Bool) : List String :=
  if dockerenv then ["✓ Running inside a Docker container"]
  else if containerenv then ["✓ Running inside a container (Podman/other)"]
  else ["✗ Not running in a container (or container type not detected)"]

/-- Source lines 287–303. -/
def check_docker (dockerenv containerenv : Bool) (dockerPs : ExecOutcome) : List String :=
  print_section "Docker/Container Check" ++
  containerMarkerLines dockerenv containerenv ++
  (let r := run_command dockerPs
   if r.2.2 = 0 ∧ r.1 ≠ "" then "Claude-related Docker containers:" :: pyLines r.1
   else [])

/-! ## Interpreter State Scan (`check_python_runtime`, source lines 305–323) -/

/-- Source lines 305–323. -/
def check_python_runtime (loadedModules sysPath : List String) : List String :=
  print_section "Python Runtime Analysis" ++
  (let mods := loadedModules.filter (fun n =>
     pyIn "claude" (pyLower n) || pyIn "anthropic" (pyLower n))
   if mods.isEmpty then ["No Claude/Anthropic modules currently imported"]
   else "Currently imported Claude/Anthropic modules:" :: mods.map (fun m => "  " ++ m)) ++
  (let ps := sysPath.filter (fun p =>
     pyIn "claude" (pyLower p) || pyIn "anthropic" (pyLower p))
   if ps.isEmpty then []
   else ["", "Claude-related paths in sys.path:"] ++ ps.map (fun p => "  " ++ p))

/-! ## Network Connection Scan (`check_network_connections`,
source lines 325–341) -/

/-- Source lines 325–341. -/
def check_network_connections (netOutcome getentOutcome : ExecOutcome) : List String :=
  print_section "Network Connections" ++
  (let r := run_command netOutcome
   if r.1 = "" then ["No active connections to Anthropic endpoints detected"]
   else "Connections to Anthropic endpoints:" :: pyLines r.1) ++
  (let r := run_command getentOutcome
   if r.1 = "" then []
   else ["", "DNS lookups for Anthropic domains:"] ++ pyLines r.1)

/-! ## Filesystem Scan (`check_file_system`, source lines 343–365) -/

/-- Source lines 348–354: the five fixed candidate directories. -/
def dirs_to_check (home : String) : List String :=
  [home ++ "/.claude", home ++ "/.config/claude", "/opt/claude",
   "/usr/local/claude", "/tmp"]

/-- Source lines 343–365: per directory the snapshot records absence
(`none`), a permission error (`.error`), or the glob result (`.ok`); a
directory with matches prints a header and its first ten files. -/
def check_file_system (home : String)
    (dirStates : List (Option (Except Unit (List String)))) : List String :=
  print_section "File System Analysis" ++
  (((dirs_to_check home).zip dirStates).map (fun ds =>
    match ds.2 with
    | none => []
    | some (.error _) => ["Permission denied accessing " ++ ds.1]
    | some (.ok files) =>
      if files.isEmpty then []
      else ["", "Claude-related files in " ++ ds.1 ++ ":"] ++
        (files.take 10).map (fun f => "  " ++ f))).flatten

/-! ## Orchestrator (`main`, source lines 367–405) -/

structure Snapshot where
  home : String
  pythonVersion : String
  platform : String
  unameOutcome : ExecOutcome
  cli : CliSnapshot
  sdk : SdkSnapshot
  environ : List (String × String)
  psOutcome : ExecOutcome
  launch : LaunchSnapshot
  dockerenv : Bool
  containerenv : Bool
  dockerPsOutcome : ExecOutcome
  loadedModules : List String
  sysPath : List String
  netOutcome : ExecOutcome
  getentOutcome : ExecOutcome
  fsDirStates : List (Option (Except Unit (List String)))

/-- Source lines 369–372: the opening banner. -/
def openingLines : List String :=
  [bannerLine,
   " Claude Code Setup Debugger",
   " Detecting whether SDK or CLI is being used",
   bannerLine]

/-- Source lines 394–402: the closing summary. -/
def summaryLines : List String :=
  print_section "Summary" ++
  ["Review the above information to determine your Claude Code setup.",
   "Key indicators:",
   "- CLI: Look for \x27claude\x27 binary in PATH, config files in ~/.claude",
   "- SDK: Look for Python/Node packages, imported modules",
   "- Both setups may use ANTHROPIC_API_KEY environment variable",
   "",
   "For e2b sandboxes specifically:",
   "- Check if code is being executed via subprocess calls to \x27claude\x27 command",
   "- Or if Python/Node SDK is being imported and used directly"]

/-- Source lines 374–391: everything `main` prints before the summary. -/
def reportBody (s : Snapshot) : List String :=
  openingLines ++
  print_section "System Information" ++
  pyLines ("Python version: " ++ s.pythonVersion) ++
  pyLines ("Platform: " ++ s.platform) ++
  (let r := run_command s.unameOutcome
   if r.1 = "" then [] else pyLines ("System: " ++ r.1)) ++
  check_claude_cli s.cli ++
  check_claude_sdk s.sdk ++
  check_environment s.environ ++
  check_processes s.psOutcome ++
  check_claude_launch_commands s.launch ++
  check_docker s.dockerenv s.containerenv s.dockerPsOutcome ++
  check_python_runtime s.loadedModules s.sysPath ++
  check_network_connections s.netOutcome s.getentOutcome ++
  check_file_system s.home s.fsDirStates

/-- Source lines 367–405: the full report and the process exit status.  The
script calls `main()` unconditionally and never calls an exit primitive, so
a completed run exits with status 0. -/
def main (s : Snapshot) : List String × Int :=
  (reportBody s ++ summaryLines, 0)

/-- A concrete ambient state for the CLI check in which `shutil.which`
found nothing while the first candidate configuration file exists and
parses to one key. -/
def cliSnapNoClaude : CliSnapshot :=
  ⟨"/home/u", none, .timedOut, [some (.ok ["api_key"]), none, none],
   [false, false, false, false]⟩

/-! ## General lemmas about the embedded Python string operations -/

/-- Stripping cannot erase a string that contains a non-whitespace
character. -/
theorem pyStrip_ne_empty {s : String} (c : Char) (hc : c ∈ s.toList)
    (hns : isPySpace c = false) : pyStrip s ≠ "" := by
  unfold pyStrip
  intro h
  have hl : (((s.toList.dropWhile isPySpace).reverse.dropWhile isPySpace).reverse) = [] := by
    have := congrArg String.toList h
    simpa using this
  rw [List.reverse_eq_nil_iff, List.dropWhile_eq_nil_iff] at hl
  have hc1 : c ∈ s.toList.dropWhile isPySpace := by
    have hsplit := List.takeWhile_append_dropWhile (p := isPySpace) (l := s.toList)
    rw [← hsplit] at hc
    rcases List.mem_append.mp hc with h1 | h2
    · exact absurd (List.mem_takeWhile_imp h1) (by simp [hns])
    · exact h2
  exact absurd (hl c (List.mem_reverse.mpr hc1)) (by simp [hns])

/-- A single-character substring test that fails means the character does
not occur. -/
theorem hasSub_singleton_false {c : Char} {l : List Char}
    (h : hasSub [c] l = false) : c ∉ l := by
  induction l with
  | nil => simp
  | cons b bs ih =>
    rw [hasSub] at h
    simp only [Bool.or_eq_false_iff] at h
    have hb : ¬ c = b := by
      have := h.1
      rw [leadMatch] at this
      simp only [Bool.and_eq_false_iff] at this
      rcases this with h1 | h2
      · simpa using h1
      · simp [leadMatch] at h2
    simp only [List.mem_cons]
    rintro (rfl | hmem)
    · exact hb rfl
    · exact ih h.2 hmem

/-- Splitting at a character that does not occur yields one piece. -/
theorem splitOnChar_not_mem {c : Char} {l : List Char} (h : c ∉ l) :
    splitOnChar c l = [l] := by
  induction l with
  | nil => rfl
  | cons a as ih =>
    have ha : ¬ a = c := fun hac => h (by simp [hac])
    have has : c ∉ as := fun hmem => h (by simp [hmem])
    rw [splitOnChar]
    simp only [if_neg ha, ih has]

/-- A text without a newline prints as a single line. -/
theorem pyLines_single {s : String} (h : pyIn "\n" s = false) : pyLines s = [s] := by
  unfold pyLines
  rw [splitOnChar_not_mem (hasSub_singleton_false (by simpa [pyIn] using h))]
  rfl

/-- Packing a valid scalar value into a character preserves its code. -/
theorem char_toNat_ofNat_valid {n : Nat} (h : n.isValidChar) :
    (Char.ofNat n).toNat = n := by
  rw [Char.ofNat, dif_pos h]
  simp [Char.ofNatAux, Char.toNat, UInt32.toNat]

/-- Upper-casing after lower-casing is plain upper-casing. -/
theorem char_toUpper_toLower (c : Char) :
    (Char.toLower c).toUpper = Char.toUpper c := by
  unfold Char.toLower Char.toUpper
  by_cases h : c.toNat ≥ 65 ∧ c.toNat ≤ 90
  · rw [if_pos h]
    have hv : (c.toNat + 32).isValidChar := Or.inl (by omega)
    have ht : (Char.ofNat (c.toNat + 32)).toNat = c.toNat + 32 := char_toNat_ofNat_valid hv
    rw [if_pos (by rw [ht]; omega), if_neg (by omega), ht]
    have h32 : c.toNat + 32 - 32 = c.toNat := by omega
    rw [h32, Char.ofNat_toNat]
  · rw [if_neg h]

/-- The uppercased form of a string is insensitive to prior lower-casing. -/
theorem pyUpper_pyLower (s : String) : pyUpper (pyLower s) = pyUpper s := by
  unfold pyUpper pyLower
  simp [List.map_map]
  congr 1
  exact List.map_congr_left (fun c _ => char_toUpper_toLower c)

/-! ## Claim theorems -/

/-- C1, amended.  For every environment variable kept by the scan whose name
contains a credential-indicating keyword: when the value is longer than 8
characters the masked output is the first 4 characters, a literal ellipsis,
and the last 4 characters; when the value has at most 8 characters the
masked output is exactly the fixed token; and the scan prints exactly that
masked entry.  (The original claim further asserted that the masked output
never contains the middle of the value and never equals a short value;
`mask_claim_counterexample` refutes those two clauses.) -/
theorem mask_behavior_amended (k v : String)
    (hsel : isSelectedName k = true) (hcred : isCredentialName k = true) :
    (8 < v.length → maskValue v = pyTake 4 v ++ "..." ++ pyLastN 4 v)
    ∧ (v.length ≤ 8 → maskValue v = "***")
    ∧ ("  " ++ k ++ "=" ++ maskValue v) ∈ check_environment [(k, v)] := by
  refine ⟨fun h => by rw [maskValue, if_pos h], fun h => by rw [maskValue, if_neg (by omega)], ?_⟩
  simp [check_environment, envEntryLine, hsel, hcred, String.append_assoc]

/-- C1 witness: the amended masking property at a concrete credential
variable with a 14-character value. -/
theorem mask_behavior_amended_witness :
    maskValue "secretvalue123" = pyTake 4 "secretvalue123" ++ "..." ++ pyLastN 4 "secretvalue123"
    ∧ ("  ANTHROPIC_API_KEY=" ++ maskValue "secretvalue123")
        ∈ check_environment [("ANTHROPIC_API_KEY", "secretvalue123")] := by
  have h := mask_behavior_amended "ANTHROPIC_API_KEY" "secretvalue123" (by decide) (by decide)
  exact ⟨h.1 (by decide), h.2.2⟩

/-- C1 counterexample.  For the credential variable `CLAUDE_API_KEY` with
the 9-character value `abcd.wxyz`, the masked output `abcd...wxyz` does
contain the original middle substring (the middle is the single character
`.`), refuting the never-contains clause; and for the 3-character value
`***` the masked output is exactly the original value, refuting the
never-the-original-value clause. -/
theorem mask_claim_counterexample :
    isSelectedName "CLAUDE_API_KEY" = true
    ∧ isCredentialName "CLAUDE_API_KEY" = true
    ∧ 8 < ("abcd.wxyz" : String).length
    ∧ maskValue "abcd.wxyz" = "abcd...wxyz"
    ∧ pyIn (pyMiddle "abcd.wxyz") (maskValue "abcd.wxyz") = true
    ∧ ("***" : String).length ≤ 8
    ∧ maskValue "***" = "***" := by
  refine ⟨by decide, by decide, by decide, by decide, by decide, by decide, by decide⟩

/-- C2, amended.  The Command Runner is a total function (it propagates no
exception): on timeout it returns empty output, the fixed timeout message
and status 1 (non-zero); on an execution failure that raises an exception it
returns empty output, the stringified reason and status 1; a command that
does not exist completes through the shell, so the runner returns its
non-zero shell status (127) and non-empty error text — but not status 1, as
`run_command_claim_counterexample` shows. -/
theorem run_command_amended (o : ExecOutcome) :
    (o = .timedOut → run_command o = ("", "Command timed out", 1))
    ∧ (∀ e, o = .raised e → run_command o = ("", e, 1))
    ∧ (∀ name, o = shellCommandNotFound name →
        (run_command o).1 = "" ∧ (run_command o).2.1 ≠ "" ∧ (run_command o).2.2 ≠ 0) := by
  refine ⟨fun h => by rw [h]; rfl, fun e h => by rw [h]; rfl, fun name h => ?_⟩
  subst h
  simp only [shellCommandNotFound, run_command]
  refine ⟨by decide, ?_, by decide⟩
  show pyStrip ("sh: 1: " ++ name ++ ": not found") ≠ ""
  apply pyStrip_ne_empty 's'
  · show 's' ∈ (("sh: 1: " ++ name ++ ": not found") : String).toList
    have : (("sh: 1: " ++ name ++ ": not found") : String).toList
        = "sh: 1: ".toList ++ name.toList ++ ": not found".toList := by
      simp [String.toList]
    rw [this]
    simp
  · decide

/-- C2 witness: the amended runner property at the timeout outcome and at a
concrete missing command. -/
theorem run_command_amended_witness :
    run_command .timedOut = ("", "Command timed out", 1)
    ∧ (run_command (shellCommandNotFound "missing-cmd")).2.2 ≠ 0 :=
  ⟨(run_command_amended .timedOut).1 rfl,
   ((run_command_amended (shellCommandNotFound "missing-cmd")).2.2 "missing-cmd" rfl).2.2⟩

/-- C2 counterexample.  A command that does not exist yields status 127,
not the status 1 the claim asserts for every non-timeout failure. -/
theorem run_command_claim_counterexample :
    run_command (shellCommandNotFound "nosuchprogram")
      = ("", "sh: 1: nosuchprogram: not found", 127)
    ∧ (run_command (shellCommandNotFound "nosuchprogram")).2.2 ≠ 1 := by
  constructor <;> decide

/-- C3.  For every ambient environment snapshot the orchestrator is a total
function: the run always completes with the opening banner at the start of
the output, the closing summary at its end, and process exit status 0. -/
theorem main_always_completes (s : Snapshot) :
    (main s).2 = 0 ∧ summaryLines <:+ (main s).1 ∧ openingLines <+: (main s).1 :=
  ⟨rfl, List.suffix_append _ _,
   (List.prefix_append openingLines _).trans (List.prefix_append _ summaryLines)⟩

/-- C4.  On the command string `claude -p myproj --debug` the flag parser
reports exactly the project-mode and debug-mode interpretations and no other
flag interpretation. -/
theorem flag_parser_on_example :
    analyze_command "claude -p myproj --debug"
      = ["  Detected arguments:", "    Project mode: myproj", "    Debug mode: Enabled"] := by
  decide

/-- C5, amended.  The analyzer reports interactive mode for a command
exactly when the command does not contain a space immediately followed by a
dash; a leading dash with no preceding space does not enter flag parsing
(see `interactive_claim_counterexample`). -/
theorem interactive_iff_amended (cmd : String) :
    analyze_command cmd = ["  Mode: Interactive (no arguments)"]
      ↔ pyIn " -" cmd = false := by
  unfold analyze_command
  cases h : pyIn " -" cmd <;> simp [h]

/-- C5 witness: the amended branch condition at the bare command. -/
theorem interactive_iff_amended_witness :
    analyze_command "claude" = ["  Mode: Interactive (no arguments)"] :=
  (interactive_iff_amended "claude").mpr (by decide)

/-- C5 counterexample.  A process listing line whose command field is
`-p claude` is retained as a session; one of its whitespace-delimited tokens
starts with a dash, yet the analyzer reports interactive mode, refuting the
claimed equivalence. -/
theorem interactive_claim_counterexample :
    parseSessions "user 11 0.0 0.0 0 0 tt S 10:00 0:01 -p claude"
      = [⟨"11", "10:00", "0:01", "-p claude"⟩]
    ∧ (pySplitWs "-p claude").any (fun t => pyStartsWith t "-") = true
    ∧ analyze_command "-p claude" = ["  Mode: Interactive (no arguments)"] := by
  refine ⟨by decide, by decide, by decide⟩

/-- C6, amended.  The installation-directory probe (step 3) runs whether or
not the executable was found, but the configuration-file probe (step 2) runs
only in the branch where the search-path lookup succeeded; when the lookup
fails the check prints only the negative line and the directory probe. -/
theorem cli_probe_amended (s : CliSnapshot) :
    (s.whichClaude = none →
      check_claude_cli s = print_section "Claude Code CLI Check"
        ++ ["✗ Claude CLI not found in PATH"] ++ cliDirLines s.home s.cliDirStates)
    ∧ (∀ p, s.whichClaude = some p →
      check_claude_cli s = print_section "Claude Code CLI Check"
        ++ ["✓ Claude CLI found at: " ++ p] ++ versionLines s.versionOutcome
        ++ configLines s.home s.configStates ++ cliDirLines s.home s.cliDirStates) := by
  constructor
  · intro h
    simp [check_claude_cli, h]
  · intro p h
    simp [check_claude_cli, h]

/-- C6 witness: the amended CLI-check shape at the concrete snapshot with no
executable on the search path. -/
theorem cli_probe_amended_witness :
    check_claude_cli cliSnapNoClaude = print_section "Claude Code CLI Check"
      ++ ["✗ Claude CLI not found in PATH"]
      ++ cliDirLines cliSnapNoClaude.home cliSnapNoClaude.cliDirStates :=
  (cli_probe_amended cliSnapNoClaude).1 rfl

/-- C6 counterexample.  With the executable absent from the search path and
an existing, parseable configuration file, the probe of the configuration
files is skipped: its line is missing from the output, refuting the claim
that step 2 is performed regardless of step 1. -/
theorem cli_config_probe_counterexample :
    cliSnapNoClaude.whichClaude = none
    ∧ cliSnapNoClaude.configStates.any (fun st => st.isSome) = true
    ∧ configLines cliSnapNoClaude.home cliSnapNoClaude.configStates ≠ []
    ∧ ("  Config found: /home/u/.claude/config.json") ∉ check_claude_cli cliSnapNoClaude := by
  refine ⟨by decide, by decide, by decide, by decide⟩

/-- C7.  The container-marker decision prints exactly one line: the Docker
line exactly when the Docker-style marker exists (so the Podman line is
never printed when it does), the Podman line exactly when only the second
marker exists, and the negative line exactly when neither exists; the
decision block sits inside the container check's output. -/
theorem container_markers_ordered (d c : Bool) :
    ((containerMarkerLines d c).length = 1
    ∧ ("✓ Running inside a Docker container" ∈ containerMarkerLines d c ↔ d = true)
    ∧ ("✓ Running inside a container (Podman/other)" ∈ containerMarkerLines d c
        ↔ (d = false ∧ c = true))
    ∧ ("✗ Not running in a container (or container type not detected)"
        ∈ containerMarkerLines d c ↔ (d = false ∧ c = false)))
    ∧ ∀ ps, containerMarkerLines d c <:+: check_docker d c ps := by
  constructor
  · cases d <;> cases c <;> refine ⟨by decide, by decide, by decide, by decide⟩
  · intro ps
    exact ⟨print_section "Docker/Container Check", _, rfl⟩

/-- C7 witness: the marker decision at the state with both markers present
prints the Docker line. -/
theorem container_markers_witness :
    "✓ Running inside a Docker container" ∈ containerMarkerLines true false :=
  ((container_markers_ordered true false).1.2.1).mpr rfl

/-- C8.  Every non-blank kept history line is printed (indented) after
cleaning: a line containing both the timestamp marker and a semicolon is
replaced by the stripped text after its first semicolon, any other line is
printed stripped. -/
theorem history_line_cleaning (stdout line : String)
    (hmem : line ∈ pyLines stdout) (hne : pyStrip line ≠ "") :
    ("    " ++ cleanHistoryLine line) ∈ historyDisplayLines stdout
    ∧ (pyIn ": " line = true ∧ pyIn ";" line = true →
        cleanHistoryLine line = pyStrip (afterFirstSemi line))
    ∧ (¬ (pyIn ": " line = true ∧ pyIn ";" line = true) →
        cleanHistoryLine line = pyStrip line) := by
  refine ⟨?_, ?_, ?_⟩
  · unfold historyDisplayLines
    exact List.mem_filterMap.mpr ⟨line, hmem, by simp [hne]⟩
  · rintro ⟨h1, h2⟩
    unfold cleanHistoryLine
    rw [if_pos (by simp [h1, h2]), if_pos h2]
  · intro hnot
    unfold cleanHistoryLine
    rw [if_neg ?_]
    intro hand
    simp only [Bool.and_eq_true] at hand
    exact hnot hand

/-- C8 witness: the cleaning property at a concrete timestamp-prefixed
history line. -/
theorem history_line_cleaning_witness :
    ("    " ++ cleanHistoryLine ": 1699:0;claude --debug")
      ∈ historyDisplayLines ": 1699:0;claude --debug"
    ∧ cleanHistoryLine ": 1699:0;claude --debug"
        = pyStrip (afterFirstSemi ": 1699:0;claude --debug") := by
  have h := history_line_cleaning ": 1699:0;claude --debug" ": 1699:0;claude --debug"
    (by decide) (by decide)
  exact ⟨h.1, h.2.1 ⟨by decide, by decide⟩⟩

/-- C9.  For every title the formatter emits a blank line, a banner of 60
equals signs, the title preceded by one space, and a closing banner (for a
newline-free title, exactly those four lines); being a total function into
an output list it returns no value and has no failure mode. -/
theorem print_section_format (title : String) :
    print_section title = ["", bannerLine] ++ pyLines (" " ++ title) ++ [bannerLine]
    ∧ (pyIn "\n" title = false →
        print_section title = ["", bannerLine, " " ++ title, bannerLine])
    ∧ bannerLine.length = 60
    ∧ bannerLine.toList.all (fun c => c = '=') = true := by
  have h1 : pyLines ("\n" ++ bannerLine) = ["", bannerLine] := by decide
  have h2 : pyLines bannerLine = [bannerLine] := by decide
  refine ⟨?_, ?_, by decide, by decide⟩
  · rw [print_section, h1, h2]
  · intro hnl
    have h3 : pyIn "\n" (" " ++ title) = false := by
      simp only [pyIn, String.toList] at hnl ⊢
      have e1 : ((" " ++ title) : String).data = ' ' :: title.data := by
        simp [String.toList]
      rw [e1, hasSub]
      simp [leadMatch, hnl]
    rw [print_section, h1, h2, pyLines_single h3]
    rfl

/-- C9 witness: the four-line banner at the title used by the closing
summary. -/
theorem print_section_format_witness :
    print_section "Summary" = ["", bannerLine, " Summary", bannerLine] :=
  (print_section_format "Summary").2.1 (by decide)

/-- C10.  The credential test uppercases the variable name before the
keyword test, so it is case-insensitive: it is invariant under lower-casing
the name, and among kept variables the printed entry carries the masked
value exactly when the uppercased name contains one of the three keywords. -/
theorem credential_test_case_insensitive (k v : String) :
    isCredentialName k = isCredentialName (pyLower k)
    ∧ (isSelectedName k = true →
        envEntryLine k v = some (k ++ "=" ++ (if isCredentialName k then maskValue v else v)))
    ∧ (isSelectedName k = true → isCredentialName k = true →
        ("  " ++ k ++ "=" ++ maskValue v) ∈ check_environment [(k, v)]) := by
  refine ⟨?_, ?_, ?_⟩
  · unfold isCredentialName
    rw [pyUpper_pyLower]
  · intro hsel
    simp [envEntryLine, hsel]
  · intro hsel hcred
    simp [check_environment, envEntryLine, hsel, hcred, String.append_assoc]

/-- C10 witness: a mixed-case name with a mixed-case keyword spelling is
masked, and the test agrees with its fully lower-cased form. -/
theorem credential_test_case_insensitive_witness :
    isCredentialName "my_Claude_Secret" = isCredentialName (pyLower "my_Claude_Secret")
    ∧ ("  my_Claude_Secret=" ++ maskValue "hunter2hunter2")
        ∈ check_environment [("my_Claude_Secret", "hunter2hunter2")] := by
  have h := credential_test_case_insensitive "my_Claude_Secret" "hunter2hunter2"
  exact ⟨h.1, h.2.2 (by decide) (by decide)⟩

end ClaudeDebugger
